import Mathlib

/-!
Verification development for the Dazlance onboarding wizard
(multi-step contractor intake persisted to a remote row store).

The embedding covers:
* a generic JSON-like row type and the object-spread semantics used by
  the `saveEntry` payload construction in src/hooks/useSupabaseForm.ts;
* the remote row store (one table) with upsert keyed on session_id and
  latest-row fetch, modelled from the specification of the external
  database boundary;
* the `saveEntry` / `fetchLatestEntry` adapter from useSupabaseForm.ts;
* the digital-presence step (zod checklist schema, submit and back
  payload mappings, hydration mapping) from DigitalPresenceForm;
* the professional/financial step payload mapping from
  ProfessionalFinancialForm.tsx;
* the notify-completion edge function from
  supabase/functions/notify-completion/index.ts.
-/

namespace Dazlance

/-- Scalar values stored in a row: the forms only persist strings and booleans. -/
inductive Value where
  | str (s : String)
  | bool (b : Bool)
  deriving DecidableEq, Repr

/-- A row is a finite mapping from column names to scalar values,
represented as an association list (JS object). -/
abbrev Row := List (String × Value)

/-- Lookup of a field in a row (JS property access). -/
def Row.get : Row → String → Option Value
  | [], _ => none
  | (k1, v) :: rest, k => if k1 = k then some v else Row.get rest k

/-- Tests whether the row has a binding for the key. -/
def Row.hasKey : Row → String → Bool
  | [], _ => false
  | (k1, _) :: rest, k => k1 = k || Row.hasKey rest k

/-- Replaces every binding of the key in place, keeping positions. -/
def Row.setAll : Row → String → Value → Row
  | [], _, _ => []
  | (k1, v1) :: rest, k, v =>
      (if k1 = k then (k, v) else (k1, v1)) :: Row.setAll rest k v

/-- Object-spread update: the JS expression with formData spread first and
a field written after it keeps the position of an existing key and appends
a missing one. -/
def Row.set (r : Row) (k : String) (v : Value) : Row :=
  if r.hasKey k then r.setAll k v else r ++ [(k, v)]

/-- Payload built by saveEntry in useSupabaseForm.ts line 45: the formData
object spread first, then the session_id field, so the argument wins over
any session_id key already present in formData. -/
def saveEntryPayload (sessionId : String) (formData : Row) : Row :=
  formData.set "session_id" (Value.str sessionId)

/-- Predicate used by the store to match a row against a session identifier. -/
def matchesSession (sessionId : String) (r : Row) : Bool :=
  decide (Row.get r "session_id" = some (Value.str sessionId))

/-- Predicate used by upsert conflict resolution: the candidate row has the
same session_id value as the incoming payload. -/
def sameSessionAs (payload r : Row) : Bool :=
  decide (Row.get r "session_id" = Row.get payload "session_id")

/-- Modelled from the spec: the external managed database is not part of the
repository sources; section 4.2 and section 6 of the specification describe
upsertBySession as insert-or-update with session_id as the unique conflict
key (repeated calls never create duplicate rows; a row with the same
session_id is overwritten in place, otherwise the payload is appended). -/
def tableUpsert (rows : List Row) (payload : Row) : List Row :=
  if rows.any (sameSessionAs payload) then
    rows.map (fun r => if sameSessionAs payload r then payload else r)
  else
    rows ++ [payload]

/-- Modelled from the spec: fetchLatestBySession filters the table by
session_id, orders by the store-assigned creation timestamp descending and
takes one row; on the list model the latest matching row is the last one. -/
def tableFetchLatest (rows : List Row) (sessionId : String) : Option Row :=
  (rows.filter (matchesSession sessionId)).getLast?

/-- Outcome of one network call against the store, as seen by the adapter:
the query succeeds, the client reports an error object, or the await throws. -/
inductive Transport where
  | ok
  | storeErr (msg : String)
  | thrown
  deriving DecidableEq, Repr

/-- Result of one saveEntry call: the table afterwards, the boolean the
function returns, and the hook error state after the call. -/
structure SaveOutcome where
  table : List Row
  success : Bool
  errorState : Option String
  deriving DecidableEq, Repr

/-- Translation of saveEntry (useSupabaseForm.ts lines 40-66): the error
state is cleared on entry; the payload spreads formData then session_id; on
an upsert error the message is stored and false returned; on a thrown
exception the generic message is stored and false returned; on success the
function returns true with the error state still clear. The function is
total: no outcome escapes as an exception. -/
def saveEntry (t : Transport) (rows : List Row) (sessionId : String)
    (formData : Row) : SaveOutcome :=
  let payload := saveEntryPayload sessionId formData
  match t with
  | Transport.ok => ⟨tableUpsert rows payload, true, none⟩
  | Transport.storeErr m => ⟨rows, false, some m⟩
  | Transport.thrown =>
      ⟨rows, false, some "An unexpected error occurred while saving data."⟩

/-- Result of one fetchLatestEntry call: the value the promise resolves to
and the hook error state after the call. -/
structure FetchOutcome where
  result : Option Row
  errorState : Option String
  deriving DecidableEq, Repr

/-- Translation of fetchLatestEntry (useSupabaseForm.ts lines 11-37): the
error state is cleared on entry; maybeSingle resolves to null when zero rows
match (no error recorded); a client error stores the message and resolves to
null; a thrown exception stores the generic message and resolves to null. -/
def fetchLatestEntry (t : Transport) (rows : List Row)
    (sessionId : String) : FetchOutcome :=
  match t with
  | Transport.ok => ⟨tableFetchLatest rows sessionId, none⟩
  | Transport.storeErr m => ⟨none, some m⟩
  | Transport.thrown =>
      ⟨none, some "An unexpected error occurred while fetching data."⟩

/-! Digital-presence step: zod checklist schema (DigitalPresenceForm lines 20-71). -/

/-- Input domain of the zod helper toolSchema: an object with a boolean
enabled flag and an optional string value. -/
structure ToolInput where
  enabled : Bool
  value : Option String
  deriving DecidableEq, Repr

/-- Input domain of the inline git and node schemas: a boolean enabled flag
and an optional boolean confirmation. -/
structure ConfirmInput where
  enabled : Bool
  confirmed : Option Bool
  deriving DecidableEq, Repr

/-- Semantics of zod min length on a string: valid when the length reaches
the bound (used as min 5 for whatsapp and min 2 for discord). -/
def zMin (n : Nat) (s : String) : Bool := decide (n ≤ s.length)

/-- Validity of the toolSchema helper (lines 20-35) for a given value schema
ok : the base object checks the optional value against ok whenever it is
present, and the superRefine additionally re-parses the value against ok
(rejecting an absent value) whenever enabled is true. -/
def toolSchemaValid (ok : String → Bool) (x : ToolInput) : Bool :=
  (match x.value with
   | none => true
   | some s => ok s)
  && (!x.enabled ||
      (match x.value with
       | none => false
       | some s => ok s))

/-- Validity of the inline git and node schemas (lines 46-69): the
superRefine rejects exactly the case where enabled is true and the confirmed
field is not literally true (absent and false are both falsy). -/
def confirmToolValid (x : ConfirmInput) : Bool :=
  !(x.enabled && !(x.confirmed.getD false))

/-- Input domain of the whole checklistSchema (lines 38-71), one entry per
tool. The value schemas for github, jira and antigravity are the zod url and
email checks; checklist validity below is parameterized over them. -/
structure ChecklistInput where
  whatsapp : ToolInput
  discord : ToolInput
  github : ToolInput
  jira : ToolInput
  git : ConfirmInput
  node : ConfirmInput
  antigravity : ToolInput
  deriving DecidableEq, Repr

/-- Validity of checklistSchema, parameterized by the url check used for
github and the email checks used for jira and antigravity; whatsapp uses
min 5 and discord uses min 2 as in the source. -/
def checklistValid (okUrl okEmail okEmail2 : String → Bool)
    (c : ChecklistInput) : Bool :=
  toolSchemaValid (zMin 5) c.whatsapp
  && toolSchemaValid (zMin 2) c.discord
  && toolSchemaValid okUrl c.github
  && toolSchemaValid okEmail c.jira
  && confirmToolValid c.git
  && confirmToolValid c.node
  && toolSchemaValid okEmail2 c.antigravity

/-- Default form values of the digital-presence step (DigitalPresenceForm
lines 95-103) when the global form aggregate holds nothing for it: every
tool disabled, value fields the empty string, confirmations false. -/
def checklistDefaults : ChecklistInput :=
  { whatsapp := ⟨false, some ""⟩
  , discord := ⟨false, some ""⟩
  , github := ⟨false, some ""⟩
  , jira := ⟨false, some ""⟩
  , git := ⟨false, some false⟩
  , node := ⟨false, some false⟩
  , antigravity := ⟨false, some ""⟩ }

/-! Digital-presence step: runtime form state and store mappings. -/

/-- Runtime state of a value tool in the form: the default values and every
onChange handler materialize the value as a string. -/
structure ToolState where
  enabled : Bool
  value : String
  deriving DecidableEq, Repr

/-- Runtime state of a confirmation tool in the form. -/
structure ConfirmState where
  enabled : Bool
  confirmed : Bool
  deriving DecidableEq, Repr

/-- Runtime form state of the digital-presence step. -/
structure ChecklistValues where
  whatsapp : ToolState
  discord : ToolState
  github : ToolState
  jira : ToolState
  git : ConfirmState
  node : ConfirmState
  antigravity : ToolState
  deriving DecidableEq, Repr

/-- Form-to-store mapping of the digital-presence step, used identically by
handleFormSubmit (lines 147-155) and handleBack (lines 171-179): a disabled
tool is normalized to the empty string or false, an enabled tool persists
its value or confirmation; the store columns are whatsapp, discord, github,
jira, git, nodejs and Antigravity. -/
def checklistPayload (d : ChecklistValues) : Row :=
  [ ("whatsapp", Value.str (if d.whatsapp.enabled then d.whatsapp.value else ""))
  , ("discord", Value.str (if d.discord.enabled then d.discord.value else ""))
  , ("github", Value.str (if d.github.enabled then d.github.value else ""))
  , ("jira", Value.str (if d.jira.enabled then d.jira.value else ""))
  , ("git", Value.bool (if d.git.enabled then d.git.confirmed else false))
  , ("nodejs", Value.bool (if d.node.enabled then d.node.confirmed else false))
  , ("Antigravity", Value.str (if d.antigravity.enabled then d.antigravity.value else "")) ]

/-- Truthiness of a fetched field under the JS double-negation used in the
hydration mapping: an absent field is falsy, a string is truthy when
nonempty, a boolean is its own truth value. -/
def jsTruthy : Option Value → Bool
  | none => false
  | some (Value.str s) => !(decide (s = ""))
  | some (Value.bool b) => b

/-- String read with the or-empty fallback used in the hydration mapping: a
truthy string is returned as is, a falsy or non-string field yields the
empty string (the persisted checklist rows hold strings in these columns). -/
def jsOrEmptyString : Option Value → String
  | some (Value.str s) => if s = "" then "" else s
  | _ => ""

/-- Store-to-form mapping of the digital-presence hydration effect
(DigitalPresenceForm lines 106-125): each value tool becomes enabled iff its
stored column is truthy and carries the stored string, each confirmation
tool takes the truthiness of its stored boolean for both flags. -/
def hydrateChecklist (db : Row) : ChecklistValues :=
  { whatsapp := ⟨jsTruthy (Row.get db "whatsapp"), jsOrEmptyString (Row.get db "whatsapp")⟩
  , discord := ⟨jsTruthy (Row.get db "discord"), jsOrEmptyString (Row.get db "discord")⟩
  , github := ⟨jsTruthy (Row.get db "github"), jsOrEmptyString (Row.get db "github")⟩
  , jira := ⟨jsTruthy (Row.get db "jira"), jsOrEmptyString (Row.get db "jira")⟩
  , git := ⟨jsTruthy (Row.get db "git"), jsTruthy (Row.get db "git")⟩
  , node := ⟨jsTruthy (Row.get db "nodejs"), jsTruthy (Row.get db "nodejs")⟩
  , antigravity := ⟨jsTruthy (Row.get db "Antigravity"), jsOrEmptyString (Row.get db "Antigravity")⟩ }

/-- Hydration cycle of the digital-presence step: fetch the latest row for
the session; when a row is returned the form is reset to the mapped data,
otherwise the defaults are kept (modelled as none). -/
def checklistHydrationCycle (t : Transport) (rows : List Row)
    (sessionId : String) : Option ChecklistValues :=
  match (fetchLatestEntry t rows sessionId).result with
  | some db => some (hydrateChecklist db)
  | none => none

/-- Result of a back-navigation handler: the table after the best-effort
save, the boolean the save reported, and the route navigated to. -/
structure BackOutcome where
  table : List Row
  saved : Bool
  navigatedTo : String
  deriving DecidableEq, Repr

/-- Translation of handleBack in DigitalPresenceForm (lines 166-183): the
current unvalidated form values are mapped to the store shape, saved
best-effort, and the navigation to /basicinfo follows unconditionally. -/
def checklistHandleBack (t : Transport) (rows : List Row) (sessionId : String)
    (d : ChecklistValues) : BackOutcome :=
  let o := saveEntry t rows sessionId (checklistPayload d)
  ⟨o.table, o.success, "/basicinfo"⟩

/-! Professional/financial step (ProfessionalFinancialForm.tsx). -/

/-- Fields shared by all payment variants (baseSchema, lines 28-43). -/
structure ProfileBase where
  workCapacity : String
  timeZone : String
  startDate : String
  primarySkills : List String
  experienceLevel : String
  portfolioUrl : String
  taxDeclaration : Bool
  deriving DecidableEq, Repr

/-- Discriminated payment union (bankSchema, wiseSchema, cryptoSchema,
lines 46-63): the tag selects exactly one populated field set. -/
inductive PaymentData where
  | bank (bankName accountNumber branchCode accountHolderName : String)
  | wise (wiseEmail : String)
  | crypto (network walletAddress : String)
  deriving DecidableEq, Repr

/-- Tag string of a payment variant, as compared by the payload ternaries. -/
def paymentMethodTag : PaymentData → String
  | PaymentData.bank _ _ _ _ => "bank"
  | PaymentData.wise _ => "wise"
  | PaymentData.crypto _ _ => "crypto"

/-- Validated form values of the professional/financial step. -/
structure ProfileValues where
  base : ProfileBase
  payment : PaymentData
  deriving DecidableEq, Repr

/-- Columns of the Finish table as written by the submit payload. -/
structure FinishRow where
  Work_capacity : String
  Time_zone : String
  Start_date : String
  Skills : String
  Experience_level : String
  Portfolio : String
  Payment_method : String
  Bank : String
  Account_no : String
  Branch_code : String
  Holder_name : String
  deriving DecidableEq, Repr

/-- Form-to-store mapping of the professional/financial step, used
identically by handleFormSubmit (lines 173-185) and handleBack (lines
202-214): skills are joined with a comma separator; the ternaries on the
payment method store the bank fields for a bank profile, put the wise email
or the wallet address into Account_no otherwise, the marker strings Wise or
Crypto into Bank, the crypto network into Branch_code, and clear
Holder_name outside the bank variant. -/
def finishPayload (d : ProfileValues) : FinishRow :=
  { Work_capacity := d.base.workCapacity
  , Time_zone := d.base.timeZone
  , Start_date := d.base.startDate
  , Skills := String.intercalate ", " d.base.primarySkills
  , Experience_level := d.base.experienceLevel
  , Portfolio := d.base.portfolioUrl
  , Payment_method := paymentMethodTag d.payment
  , Bank :=
      match d.payment with
      | PaymentData.bank bn _ _ _ => bn
      | PaymentData.wise _ => "Wise"
      | PaymentData.crypto _ _ => "Crypto"
  , Account_no :=
      match d.payment with
      | PaymentData.bank _ an _ _ => an
      | PaymentData.wise we => we
      | PaymentData.crypto _ wa => wa
  , Branch_code :=
      match d.payment with
      | PaymentData.bank _ _ bc _ => bc
      | PaymentData.wise _ => ""
      | PaymentData.crypto n _ => n
  , Holder_name :=
      match d.payment with
      | PaymentData.bank _ _ _ hn => hn
      | PaymentData.wise _ => ""
      | PaymentData.crypto _ _ => "" }

/-- Generic row view of a Finish payload, in the key order of the source
object literal. -/
def FinishRow.toRow (r : FinishRow) : Row :=
  [ ("Work_capacity", Value.str r.Work_capacity)
  , ("Time_zone", Value.str r.Time_zone)
  , ("Start_date", Value.str r.Start_date)
  , ("Skills", Value.str r.Skills)
  , ("Experience_level", Value.str r.Experience_level)
  , ("Portfolio", Value.str r.Portfolio)
  , ("Payment_method", Value.str r.Payment_method)
  , ("Bank", Value.str r.Bank)
  , ("Account_no", Value.str r.Account_no)
  , ("Branch_code", Value.str r.Branch_code)
  , ("Holder_name", Value.str r.Holder_name) ]

/-- Translation of handleBack in ProfessionalFinancialForm.tsx (lines
198-218): the current unvalidated form values are mapped to the store
shape, saved best-effort, and the navigation to /requirements follows
unconditionally. -/
def professionalHandleBack (t : Transport) (rows : List Row)
    (sessionId : String) (d : ProfileValues) : BackOutcome :=
  let o := saveEntry t rows sessionId (finishPayload d).toRow
  ⟨o.table, o.success, "/requirements"⟩

/-- String read with a JS or-fallback: a truthy stored string is returned
as is, a falsy or absent field yields the fallback (the persisted Finish
rows hold strings in every column). -/
def jsOrElseString (v : Option Value) (fallback : String) : String :=
  match v with
  | some (Value.str s) => if s = "" then fallback else s
  | _ => fallback

/-- Skills read of the hydration effect: a truthy Skills string is split on
the comma separator, a falsy or absent one yields the empty list. -/
def jsSplitSkills (v : Option Value) : List String :=
  match v with
  | some (Value.str s) => if s = "" then [] else s.splitOn ", "
  | _ => []

/-- In-memory form state produced by the professional/financial hydration
effect: the base fields are always written, the variant fields only inside
the branch matching the stored payment method (absent otherwise). -/
structure ProfileFormState where
  workCapacity : String
  timeZone : String
  startDate : String
  primarySkills : List String
  experienceLevel : String
  portfolioUrl : String
  taxDeclaration : Bool
  paymentMethod : String
  bankName : Option String
  accountNumber : Option String
  branchCode : Option String
  accountHolderName : Option String
  wiseEmail : Option String
  network : Option String
  walletAddress : Option String
  deriving DecidableEq, Repr

/-- Store-to-form mapping of the professional/financial hydration effect
(ProfessionalFinancialForm.tsx lines 119-152): every base field falls back
through a JS or-default (full-time, mid-level, bank, empty strings), Skills
is split on the comma separator, taxDeclaration is reset to false, and the
branch chain on the raw stored Payment_method fills exactly the selected
variant: the bank columns for bank, Account_no as the wise email for wise,
and Branch_code as network with Account_no as wallet address for crypto. -/
def hydrateProfile (db : Row) : ProfileFormState :=
  { workCapacity := jsOrElseString (Row.get db "Work_capacity") "full-time"
  , timeZone := jsOrElseString (Row.get db "Time_zone") ""
  , startDate := jsOrElseString (Row.get db "Start_date") ""
  , primarySkills := jsSplitSkills (Row.get db "Skills")
  , experienceLevel := jsOrElseString (Row.get db "Experience_level") "mid-level"
  , portfolioUrl := jsOrElseString (Row.get db "Portfolio") ""
  , taxDeclaration := false
  , paymentMethod := jsOrElseString (Row.get db "Payment_method") "bank"
  , bankName :=
      if Row.get db "Payment_method" = some (Value.str "bank")
      then some (jsOrElseString (Row.get db "Bank") "") else none
  , accountNumber :=
      if Row.get db "Payment_method" = some (Value.str "bank")
      then some (jsOrElseString (Row.get db "Account_no") "") else none
  , branchCode :=
      if Row.get db "Payment_method" = some (Value.str "bank")
      then some (jsOrElseString (Row.get db "Branch_code") "") else none
  , accountHolderName :=
      if Row.get db "Payment_method" = some (Value.str "bank")
      then some (jsOrElseString (Row.get db "Holder_name") "") else none
  , wiseEmail :=
      if Row.get db "Payment_method" = some (Value.str "wise")
      then some (jsOrElseString (Row.get db "Account_no") "") else none
  , network :=
      if Row.get db "Payment_method" = some (Value.str "crypto")
      then some (jsOrElseString (Row.get db "Branch_code") "") else none
  , walletAddress :=
      if Row.get db "Payment_method" = some (Value.str "crypto")
      then some (jsOrElseString (Row.get db "Account_no") "") else none }

/-- Hydration cycle of the professional/financial step: fetch the latest
Finish row for the session; when a row is returned the form is reset to the
mapped data, otherwise the defaults are kept (modelled as none). -/
def profileHydrationCycle (t : Transport) (rows : List Row)
    (sessionId : String) : Option ProfileFormState :=
  match (fetchLatestEntry t rows sessionId).result with
  | some db => some (hydrateProfile db)
  | none => none

/-! Completion forwarder (supabase/functions/notify-completion/index.ts). -/

/-- Parsed body of an incoming database webhook notification. -/
structure WebhookEvent where
  eventType : String
  table : String
  record : Row
  deriving DecidableEq, Repr

/-- JSON body of the outbound POST to the configured webhook endpoint. -/
structure NotifyBody where
  event : String
  session_id : Option Value
  payment_method : Option Value
  work_capacity : Option Value
  timestamp : String
  deriving DecidableEq, Repr

/-- Response of the edge function handler: the outbound POST it performed,
if any, together with the HTTP status and body it answers with. -/
structure NotifyResult where
  post : Option NotifyBody
  status : Nat
  success : Bool
  message : String
  deriving DecidableEq, Repr

/-- Translation of the serve handler (index.ts lines 13-57): only an INSERT
event on the Finish table triggers the outbound POST, whose body takes
session_id, Payment_method and Work_capacity from the inserted record plus
the current timestamp; a non-ok webhook response is turned into a thrown
error caught as a 400 failure; every other event is answered as ignored
with no POST performed. -/
def notifyCompletion (p : WebhookEvent) (now : String) (respOk : Bool)
    (respStatus : Nat) : NotifyResult :=
  if p.eventType = "INSERT" ∧ p.table = "Finish" then
    let body : NotifyBody :=
      ⟨"onboarding_completed", Row.get p.record "session_id",
        Row.get p.record "Payment_method", Row.get p.record "Work_capacity", now⟩
    if respOk then
      ⟨some body, 200, true, "Webhook notified successfully"⟩
    else
      ⟨some body, 400, false, "Webhook failed with status: " ++ toString respStatus⟩
  else
    ⟨none, 200, true, "Ignored unrelated event"⟩

/-! Example values used by the closed witness theorems. -/

/-- Concrete digital-presence form state from the example scenario of the
specification: whatsapp enabled with a phone number, everything else off. -/
def exChecklistValues : ChecklistValues :=
  { whatsapp := ⟨true, "+15550000000"⟩
  , discord := ⟨false, ""⟩
  , github := ⟨false, ""⟩
  , jira := ⟨false, ""⟩
  , git := ⟨false, false⟩
  , node := ⟨false, false⟩
  , antigravity := ⟨false, ""⟩ }

/-- Concrete crypto payment profile used as counterexample input. -/
def exCryptoProfile : ProfileValues :=
  { base :=
      { workCapacity := "full-time"
      , timeZone := "UTC+5:30"
      , startDate := "2026-01-01"
      , primarySkills := ["React.js"]
      , experienceLevel := "senior"
      , portfolioUrl := "https://github.com/example"
      , taxDeclaration := true }
  , payment := PaymentData.crypto "TRC20" "TXYZWalletAddress" }

/-- Concrete inserted Finish record for the forwarder witness. -/
def exFinishRecord : Row :=
  [ ("session_id", Value.str "abc123")
  , ("Payment_method", Value.str "crypto")
  , ("Work_capacity", Value.str "full-time") ]

/-! Lemmas about row field access and object-spread update. -/

theorem Row.get_setAll_same (r : Row) (k : String) (v : Value)
    (h : Row.hasKey r k = true) : Row.get (Row.setAll r k v) k = some v := by
  induction r with
  | nil => simp [Row.hasKey] at h
  | cons p rest ih =>
      obtain ⟨k1, v1⟩ := p
      simp only [Row.setAll]
      by_cases hk : k1 = k
      · rw [if_pos hk]
        simp [Row.get]
      · rw [if_neg hk]
        have hrest : Row.hasKey rest k = true := by
          simp only [Row.hasKey, Bool.or_eq_true, decide_eq_true_eq] at h
          rcases h with h | h
          · exact absurd h hk
          · exact h
        simp only [Row.get]
        rw [if_neg hk]
        exact ih hrest

theorem Row.get_setAll_other (r : Row) (k k2 : String) (v : Value)
    (h : k2 ≠ k) : Row.get (Row.setAll r k v) k2 = Row.get r k2 := by
  induction r with
  | nil => rfl
  | cons p rest ih =>
      obtain ⟨k1, v1⟩ := p
      simp only [Row.setAll]
      by_cases hk : k1 = k
      · rw [if_pos hk]
        have h1 : ¬(k = k2) := fun e => h e.symm
        have h2 : ¬(k1 = k2) := fun e => h1 (hk.symm.trans e)
        simp only [Row.get]
        rw [if_neg h1, if_neg h2]
        exact ih
      · rw [if_neg hk]
        simp only [Row.get]
        rw [ih]

theorem Row.get_append_of_hasKey_eq_false (r r2 : Row) (k : String)
    (h : Row.hasKey r k = false) : Row.get (r ++ r2) k = Row.get r2 k := by
  induction r with
  | nil => rfl
  | cons p rest ih =>
      obtain ⟨k1, v1⟩ := p
      simp only [Row.hasKey, Bool.or_eq_false_iff, decide_eq_false_iff_not] at h
      simp [Row.get, h.1, ih h.2]

theorem Row.get_append_single_other (r : Row) (k k2 : String) (v : Value)
    (h : k2 ≠ k) : Row.get (r ++ [(k, v)]) k2 = Row.get r k2 := by
  induction r with
  | nil =>
      have h1 : ¬(k = k2) := fun e => h e.symm
      simp [Row.get, h1]
  | cons p rest ih =>
      obtain ⟨k1, v1⟩ := p
      simp [Row.get, ih]

theorem Row.get_set_same (r : Row) (k : String) (v : Value) :
    Row.get (Row.set r k v) k = some v := by
  unfold Row.set
  by_cases h : Row.hasKey r k = true
  · simp [h, Row.get_setAll_same r k v h]
  · have h2 : Row.hasKey r k = false := by
      cases hb : Row.hasKey r k
      · rfl
      · exact absurd hb h
    rw [if_neg (by simp [h2]), Row.get_append_of_hasKey_eq_false r _ k h2]
    simp [Row.get]

theorem Row.get_set_other (r : Row) (k k2 : String) (v : Value) (h : k2 ≠ k) :
    Row.get (Row.set r k v) k2 = Row.get r k2 := by
  unfold Row.set
  by_cases hk : Row.hasKey r k = true
  · simp [hk, Row.get_setAll_other r k k2 v h]
  · have h2 : Row.hasKey r k = false := by
      cases hb : Row.hasKey r k
      · rfl
      · exact absurd hb hk
    rw [if_neg (by simp [h2]), Row.get_append_single_other r k k2 v h]

theorem saveEntryPayload_session (s : String) (fd : Row) :
    Row.get (saveEntryPayload s fd) "session_id" = some (Value.str s) :=
  Row.get_set_same fd "session_id" (Value.str s)

theorem saveEntryPayload_other (s : String) (fd : Row) (k : String)
    (h : k ≠ "session_id") :
    Row.get (saveEntryPayload s fd) k = Row.get fd k :=
  Row.get_set_other fd "session_id" k (Value.str s) h

/-! Lemmas about the modelled store. -/

theorem sameSessionAs_self (P : Row) : sameSessionAs P P = true := by
  unfold sameSessionAs
  exact decide_eq_true rfl

theorem sameSessionAs_eq_matchesSession (P : Row) (S : String)
    (hP : Row.get P "session_id" = some (Value.str S)) (r : Row) :
    sameSessionAs P r = matchesSession S r := by
  unfold sameSessionAs matchesSession
  rw [hP]

theorem filter_upsert_map (P : Row) (l : List Row) :
    (l.map (fun r => if sameSessionAs P r then P else r)).filter (sameSessionAs P)
      = (l.filter (sameSessionAs P)).map (fun _ => P) := by
  induction l with
  | nil => rfl
  | cons a l ih =>
      rw [List.map_cons]
      by_cases ha : sameSessionAs P a = true
      · rw [if_pos ha, List.filter_cons, List.filter_cons, if_pos ha,
          if_pos (sameSessionAs_self P), List.map_cons, ih]
      · rw [if_neg ha, List.filter_cons, List.filter_cons, if_neg ha, if_neg ha, ih]

theorem tableUpsert_filter (rows : List Row) (P : Row)
    (h : (rows.filter (sameSessionAs P)).length ≤ 1) :
    (tableUpsert rows P).filter (sameSessionAs P) = [P] := by
  have hPP : sameSessionAs P P = true := sameSessionAs_self P
  unfold tableUpsert
  by_cases hany : rows.any (sameSessionAs P) = true
  · rw [if_pos hany, filter_upsert_map]
    obtain ⟨x, hx, hpx⟩ := List.any_eq_true.mp hany
    have hmem : x ∈ rows.filter (sameSessionAs P) := List.mem_filter.mpr ⟨hx, hpx⟩
    have hpos : 0 < (rows.filter (sameSessionAs P)).length :=
      List.length_pos.mpr (List.ne_nil_of_mem hmem)
    have hlen : (rows.filter (sameSessionAs P)).length = 1 := le_antisymm h hpos
    obtain ⟨a, ha⟩ := List.length_eq_one.mp hlen
    rw [ha, List.map_cons, List.map_nil]
  · rw [if_neg hany, List.filter_append]
    have hnil : rows.filter (sameSessionAs P) = [] := by
      rw [List.filter_eq_nil_iff]
      intro a ha hpa
      exact hany (List.any_eq_true.mpr ⟨a, ha, hpa⟩)
    rw [hnil, List.nil_append, List.filter_cons, if_pos hPP, List.filter_nil]

theorem tableUpsert_filter_matches (rows : List Row) (S : String) (P : Row)
    (hP : Row.get P "session_id" = some (Value.str S))
    (h : (rows.filter (matchesSession S)).length ≤ 1) :
    (tableUpsert rows P).filter (matchesSession S) = [P] := by
  have hcong : ∀ l : List Row,
      l.filter (sameSessionAs P) = l.filter (matchesSession S) := by
    intro l
    exact List.filter_congr (fun a _ => sameSessionAs_eq_matchesSession P S hP a)
  rw [← hcong]
  refine tableUpsert_filter rows P ?_
  rw [hcong]
  exact h

theorem saveEntry_ok_filter (rows : List Row) (S : String) (fd : Row)
    (h : (rows.filter (matchesSession S)).length ≤ 1) :
    ((saveEntry Transport.ok rows S fd).table).filter (matchesSession S)
      = [saveEntryPayload S fd] :=
  tableUpsert_filter_matches rows S (saveEntryPayload S fd)
    (saveEntryPayload_session S fd) h

theorem saveEntry_ok_fetch (rows : List Row) (S : String) (fd : Row)
    (h : (rows.filter (matchesSession S)).length ≤ 1) :
    (fetchLatestEntry Transport.ok (saveEntry Transport.ok rows S fd).table S).result
      = some (saveEntryPayload S fd) := by
  show tableFetchLatest (saveEntry Transport.ok rows S fd).table S = _
  unfold tableFetchLatest
  rw [saveEntry_ok_filter rows S fd h]
  rfl

/-! Claim theorems. -/

/-- C1: for every session identifier S and every row r, calling saveEntry
twice with the same S and the same r, starting from a table honoring the
unique-session constraint, leaves exactly one row matching S in the table;
fetchLatest retrieves that row; it carries session_id equal to S and agrees
with r on every other field. -/
theorem claim_C1_idempotent_upsert (rows : List Row) (S : String) (r : Row)
    (h : (rows.filter (matchesSession S)).length ≤ 1) :
    (((saveEntry Transport.ok (saveEntry Transport.ok rows S r).table S r).table).filter
        (matchesSession S)).length = 1
    ∧ (fetchLatestEntry Transport.ok
        (saveEntry Transport.ok (saveEntry Transport.ok rows S r).table S r).table S).result
      = some (saveEntryPayload S r)
    ∧ Row.get (saveEntryPayload S r) "session_id" = some (Value.str S)
    ∧ ∀ k : String, k ≠ "session_id" →
        Row.get (saveEntryPayload S r) k = Row.get r k := by
  have h1 : ((saveEntry Transport.ok rows S r).table).filter (matchesSession S)
      = [saveEntryPayload S r] := saveEntry_ok_filter rows S r h
  have h1len : (((saveEntry Transport.ok rows S r).table).filter (matchesSession S)).length ≤ 1 := by
    rw [h1]
    exact Nat.le_refl 1
  have h2 : ((saveEntry Transport.ok (saveEntry Transport.ok rows S r).table S r).table).filter
      (matchesSession S) = [saveEntryPayload S r] :=
    saveEntry_ok_filter (saveEntry Transport.ok rows S r).table S r h1len
  refine ⟨by rw [h2]; rfl, ?_, saveEntryPayload_session S r,
    fun k hk => saveEntryPayload_other S r k hk⟩
  exact saveEntry_ok_fetch (saveEntry Transport.ok rows S r).table S r h1len

/-- C1 witness: the double save of the example row under session abc123
into the empty table is retrieved back as the tagged payload. -/
theorem claim_C1_idempotent_upsert_witness :
    (fetchLatestEntry Transport.ok
        (saveEntry Transport.ok
          (saveEntry Transport.ok [] "abc123" [("whatsapp", Value.str "+15550000000")]).table
          "abc123" [("whatsapp", Value.str "+15550000000")]).table "abc123").result
      = some (saveEntryPayload "abc123" [("whatsapp", Value.str "+15550000000")]) :=
  (claim_C1_idempotent_upsert [] "abc123" [("whatsapp", Value.str "+15550000000")]
    (by decide)).2.1

/-- C2 counterexample: for a crypto profile the persisted row does not
normalize the bank fields to empty values: the Bank column holds the
literal marker Crypto and Branch_code carries the crypto network. -/
theorem claim_C2_counterexample :
    (finishPayload exCryptoProfile).Bank = "Crypto"
    ∧ (finishPayload exCryptoProfile).Branch_code = "TRC20"
    ∧ ¬((finishPayload exCryptoProfile).Bank = "") := by
  refine ⟨rfl, rfl, ?_⟩
  decide

/-- C2 amended: for a crypto profile the persisted row is tagged
Payment_method crypto and reuses the bank columns to carry the crypto data:
Bank holds the constant marker Crypto, Account_no holds the wallet address,
Branch_code holds the network, and only Holder_name is normalized to the
empty string. -/
theorem claim_C2_crypto_persistence_amended (b : ProfileBase) (n w : String) :
    (finishPayload ⟨b, PaymentData.crypto n w⟩).Payment_method = "crypto"
    ∧ (finishPayload ⟨b, PaymentData.crypto n w⟩).Bank = "Crypto"
    ∧ (finishPayload ⟨b, PaymentData.crypto n w⟩).Account_no = w
    ∧ (finishPayload ⟨b, PaymentData.crypto n w⟩).Branch_code = n
    ∧ (finishPayload ⟨b, PaymentData.crypto n w⟩).Holder_name = "" :=
  ⟨rfl, rfl, rfl, rfl, rfl⟩

/-- C3: a row persisted by saveEntry for session S in the collection of a
step is returned unchanged by the next fetch of that collection, and the
hydration cycle of the step resets the form to exactly that row mapped through the
store-to-form mapping of the step: hydrateChecklist for the
digital-presence step bound to the requirements collection, hydrateProfile
for the professional/financial step bound to the Finish collection (the
two tables are independent, so each step starts from its own table). -/
theorem claim_C3_resume_fidelity (rows rows2 : List Row) (S : String)
    (d : ChecklistValues) (p : ProfileValues)
    (h : (rows.filter (matchesSession S)).length ≤ 1)
    (h2 : (rows2.filter (matchesSession S)).length ≤ 1) :
    (fetchLatestEntry Transport.ok
        (saveEntry Transport.ok rows S (checklistPayload d)).table S).result
      = some (saveEntryPayload S (checklistPayload d))
    ∧ checklistHydrationCycle Transport.ok
        (saveEntry Transport.ok rows S (checklistPayload d)).table S
      = some (hydrateChecklist (saveEntryPayload S (checklistPayload d)))
    ∧ (fetchLatestEntry Transport.ok
        (saveEntry Transport.ok rows2 S (finishPayload p).toRow).table S).result
      = some (saveEntryPayload S (finishPayload p).toRow)
    ∧ profileHydrationCycle Transport.ok
        (saveEntry Transport.ok rows2 S (finishPayload p).toRow).table S
      = some (hydrateProfile (saveEntryPayload S (finishPayload p).toRow)) := by
  have hf := saveEntry_ok_fetch rows S (checklistPayload d) h
  have hg := saveEntry_ok_fetch rows2 S (finishPayload p).toRow h2
  refine ⟨hf, ?_, hg, ?_⟩
  · unfold checklistHydrationCycle
    rw [hf]
  · unfold profileHydrationCycle
    rw [hg]

/-- C3 witness: the example digital-presence submission under session
abc123 into the empty requirements table hydrates back as the mapped
persisted row, and the example crypto profile submission into the empty
Finish table hydrates back as the mapped persisted row. -/
theorem claim_C3_resume_fidelity_witness :
    checklistHydrationCycle Transport.ok
        (saveEntry Transport.ok [] "abc123" (checklistPayload exChecklistValues)).table "abc123"
      = some (hydrateChecklist (saveEntryPayload "abc123" (checklistPayload exChecklistValues)))
    ∧ profileHydrationCycle Transport.ok
        (saveEntry Transport.ok [] "abc123" (finishPayload exCryptoProfile).toRow).table "abc123"
      = some (hydrateProfile (saveEntryPayload "abc123" (finishPayload exCryptoProfile).toRow)) :=
  ⟨(claim_C3_resume_fidelity [] [] "abc123" exChecklistValues exCryptoProfile
      (by decide) (by decide)).2.1,
   (claim_C3_resume_fidelity [] [] "abc123" exChecklistValues exCryptoProfile
      (by decide) (by decide)).2.2.2⟩

/-- C4: failing input for the claim that a disabled tool validates
regardless of its value field: the whatsapp entry of checklistSchema with
enabled false and the empty-string value (the default state of the form)
is rejected, because the base object still checks the present value against
min 5; the enabled-true halves behave as claimed. -/
theorem claim_C4_disabled_tool_still_validated :
    toolSchemaValid (zMin 5) ⟨false, some ""⟩ = false
    ∧ toolSchemaValid (zMin 5) ⟨true, some ""⟩ = false
    ∧ toolSchemaValid (zMin 5) ⟨true, none⟩ = false
    ∧ confirmToolValid ⟨true, some false⟩ = false
    ∧ confirmToolValid ⟨true, none⟩ = false
    ∧ toolSchemaValid (zMin 5) ⟨false, none⟩ = true := by
  decide

/-- C5: failing input for the warning-not-blocking claim: with all seven
tools toggled off in their default state, checklistSchema rejects the
submission (the disabled whatsapp and discord values, the empty string,
fail their min-length checks), whatever the url and email checks do, so
handleFormSubmit and the navigation are never reached. -/
theorem claim_C5_all_disabled_defaults_fail_validation
    (okUrl okEmail okEmail2 : String → Bool) :
    checklistValid okUrl okEmail okEmail2 checklistDefaults = false := rfl

/-- C6: back navigation from the digital-presence step and from the
professional/financial step maps the current unvalidated form state to the
store shape, attempts the upsert, and always completes the navigation to
the previous route, for every transport outcome. -/
theorem claim_C6_back_nav_always_completes (t : Transport) (rows : List Row)
    (S : String) (d : ChecklistValues) (p : ProfileValues) :
    (checklistHandleBack t rows S d).navigatedTo = "/basicinfo"
    ∧ (checklistHandleBack t rows S d).table
        = (saveEntry t rows S (checklistPayload d)).table
    ∧ (checklistHandleBack t rows S d).saved
        = (saveEntry t rows S (checklistPayload d)).success
    ∧ (professionalHandleBack t rows S p).navigatedTo = "/requirements"
    ∧ (professionalHandleBack t rows S p).table
        = (saveEntry t rows S (finishPayload p).toRow).table :=
  ⟨rfl, rfl, rfl, rfl, rfl⟩

/-- C7: when zero rows match the session, fetchLatestEntry resolves to none
with a clear error state; on a transport or auth error it resolves to none
with the error message stored; the two outcomes differ in the error state,
so callers can distinguish them. -/
theorem claim_C7_none_vs_store_error (rows : List Row) (S m : String)
    (h : rows.filter (matchesSession S) = []) :
    fetchLatestEntry Transport.ok rows S = ⟨none, none⟩
    ∧ fetchLatestEntry (Transport.storeErr m) rows S = ⟨none, some m⟩
    ∧ (fetchLatestEntry Transport.ok rows S).errorState
        ≠ (fetchLatestEntry (Transport.storeErr m) rows S).errorState := by
  refine ⟨?_, rfl, ?_⟩
  · show (⟨tableFetchLatest rows S, none⟩ : FetchOutcome) = ⟨none, none⟩
    unfold tableFetchLatest
    rw [h]
    rfl
  · show (none : Option String) ≠ some m
    simp

/-- C7 witness: the empty table under session abc123 resolves to none with
no error recorded. -/
theorem claim_C7_none_vs_store_error_witness :
    fetchLatestEntry Transport.ok [] "abc123" = ⟨none, none⟩ :=
  (claim_C7_none_vs_store_error [] "abc123" "network unreachable" rfl).1

/-- C8: saveEntry is a total function of the transport outcome: a store
failure is surfaced as the boolean false together with a stored error
message, a thrown exception is caught and surfaced the same way, and a
success returns true with the error state cleared; no outcome is raised to
the caller. -/
theorem claim_C8_save_failure_surfaced (rows : List Row) (S : String)
    (fd : Row) (m : String) :
    (saveEntry Transport.ok rows S fd).success = true
    ∧ (saveEntry Transport.ok rows S fd).errorState = none
    ∧ (saveEntry (Transport.storeErr m) rows S fd).success = false
    ∧ (saveEntry (Transport.storeErr m) rows S fd).errorState = some m
    ∧ (saveEntry Transport.thrown rows S fd).success = false
    ∧ (saveEntry Transport.thrown rows S fd).errorState
        = some "An unexpected error occurred while saving data." :=
  ⟨rfl, rfl, rfl, rfl, rfl, rfl⟩

/-- C9: the completion forwarder posts exactly for INSERT events on the
Finish table, with the onboarding_completed body taken from the inserted
record and the supplied timestamp; every other event produces no outbound
POST and is answered as ignored. -/
theorem claim_C9_completion_forwarder (p : WebhookEvent) (now : String)
    (respOk : Bool) (respStatus : Nat) :
    (p.eventType = "INSERT" ∧ p.table = "Finish" →
      (notifyCompletion p now respOk respStatus).post
        = some ⟨"onboarding_completed", Row.get p.record "session_id",
            Row.get p.record "Payment_method", Row.get p.record "Work_capacity", now⟩)
    ∧ (¬(p.eventType = "INSERT" ∧ p.table = "Finish") →
        (notifyCompletion p now respOk respStatus).post = none
        ∧ (notifyCompletion p now respOk respStatus).message = "Ignored unrelated event") := by
  constructor
  · intro h
    unfold notifyCompletion
    rw [if_pos h]
    cases respOk <;> rfl
  · intro h
    unfold notifyCompletion
    rw [if_neg h]
    exact ⟨rfl, rfl⟩

/-- C9 witness: an INSERT on Finish with the example record posts the
onboarding_completed body built from that record. -/
theorem claim_C9_completion_forwarder_witness :
    (notifyCompletion ⟨"INSERT", "Finish", exFinishRecord⟩ "2026-10-11T00:00:00Z" true 200).post
      = some ⟨"onboarding_completed", Row.get exFinishRecord "session_id",
          Row.get exFinishRecord "Payment_method", Row.get exFinishRecord "Work_capacity",
          "2026-10-11T00:00:00Z"⟩ :=
  (claim_C9_completion_forwarder ⟨"INSERT", "Finish", exFinishRecord⟩
    "2026-10-11T00:00:00Z" true 200).1 ⟨rfl, rfl⟩

/-- C10: the payload persisted by saveEntry carries session_id equal to the
sessionId argument, for every formData, including one holding a conflicting
session_id key, because the argument is spread last; hence after a
successful save the table holds a row tagged with the calling session. -/
theorem claim_C10_session_id_argument_wins (S : String) (fd : Row)
    (rows : List Row) :
    Row.get (saveEntryPayload S fd) "session_id" = some (Value.str S)
    ∧ ((saveEntry Transport.ok rows S fd).table.any (matchesSession S)) = true := by
  refine ⟨saveEntryPayload_session S fd, ?_⟩
  show (tableUpsert rows (saveEntryPayload S fd)).any (matchesSession S) = true
  have hPm : matchesSession S (saveEntryPayload S fd) = true := by
    unfold matchesSession
    rw [saveEntryPayload_session]
    exact decide_eq_true rfl
  unfold tableUpsert
  by_cases hany : rows.any (sameSessionAs (saveEntryPayload S fd)) = true
  · rw [if_pos hany]
    obtain ⟨x, hx, hpx⟩ := List.any_eq_true.mp hany
    refine List.any_eq_true.mpr ⟨saveEntryPayload S fd, ?_, hPm⟩
    refine List.mem_map.mpr ⟨x, hx, ?_⟩
    rw [if_pos hpx]
  · rw [if_neg hany]
    refine List.any_eq_true.mpr ⟨saveEntryPayload S fd, ?_, hPm⟩
    simp

end Dazlance
